import Mathlib

/-!
Shallow embedding of the `financial_pdf_parsing` package and the
`vanguard_pdf_to_txns.py` script, together with proofs about the claims of
the specification.

Conventions of the embedding:
* Python `decimal.Decimal` values are modelled as `Rat` (statement amounts
  are exact decimals, and `Decimal` equality/arithmetic on them is exact
  numeric equality/arithmetic, which `Rat` realises).  Concrete rationals
  are built through `mkRat`, which the kernel can evaluate.
* `beancount.core.amount.Amount` is the structure `Amount` below.
* Python exceptions are modelled with `Option`/`Except`: `none`/`.error`
  means the corresponding Python call raises.
* `datetime.date` is the structure `Date` below; `datetime.date` values
  compare lexicographically on `(year, month, day)`, which `dateLt` mirrors.
* The regular-expression machinery (`re.finditer`) is external to the code
  under verification: the extraction primitives `reduceSingleMatch` and
  `parseAll` are embedded as functions of the list of matches that
  `finditer` produced, in document order, exactly as the Python bodies
  consume that iterator.
-/

namespace FinancialPdfParsing

/-- `beancount.core.amount.Amount`: a Decimal number with a currency code. -/
structure Amount where
  number : Rat
  currency : String
  deriving DecidableEq, Repr

/-- `beancount.core.amount.mul(amount, number)`: multiplies the number,
keeps the currency.  The product of the two exact rationals is written
`mkRat (num*num) (den*den)` (a kernel-computable form of `a.number * n`;
see `amountMul_number`). -/
def amountMul (a : Amount) (n : Rat) : Amount :=
  ⟨mkRat (a.number.num * n.num) (a.number.den * n.den), a.currency⟩

/-- `pdf.NEGATIVE_ONE = number.D("-1")`. -/
def NEGATIVE_ONE : Rat := -1

/-- `pdf.InvertAmount(amt) = amount.mul(amt, NEGATIVE_ONE)`. -/
def InvertAmount (a : Amount) : Amount :=
  amountMul a NEGATIVE_ONE

/-- Digit-string accumulator: the value of a list of decimal digit
characters (used only on lists already known to consist of digits). -/
def natVal (l : List Char) : Nat :=
  l.foldl (fun acc c => acc * 10 + (c.toNat - 48)) 0

/-- `decimal.Decimal(str)` on the plain-literal fragment the statements
exercise: an optional sign, then integer digits, an optional dot and
fraction digits, at least one digit overall.  The value of
`[sign]ddd.fff` is `sign * (ddd * 10^k + fff) / 10^k` with `k` fraction
digits, written with `mkRat`.  Anything else (a `$`, a space, an empty
string, a second dot, ...) raises `InvalidOperation`, modelled as `none`.
(Exponents and `NaN`/`Infinity` literals never occur in the inputs of this
code base and are not modelled.) -/
def parseDecimal (l : List Char) : Option Rat :=
  let (sign, rest) :=
    match l with
    | '-' :: r => ((-1 : Int), r)
    | '+' :: r => ((1 : Int), r)
    | r => ((1 : Int), r)
  let intPart := rest.takeWhile Char.isDigit
  let rest2 := rest.dropWhile Char.isDigit
  match rest2 with
  | [] =>
      if intPart.isEmpty then none
      else some (mkRat (sign * natVal intPart) 1)
  | '.' :: frac =>
      if frac.all Char.isDigit ∧ ¬(intPart.isEmpty ∧ frac.isEmpty) then
        some (mkRat (sign * (natVal intPart * 10 ^ frac.length + natVal frac))
          (10 ^ frac.length))
      else none
  | _ => none

/-- `beancount.core.number.D` on strings: `D('')` is `Decimal()` (zero);
otherwise commas and spaces are removed (`_CLEAN_NUMBER_RE = '[, ]'`) and
the remainder is handed to `decimal.Decimal`. -/
def D (s : String) : Option Rat :=
  if s = "" then some 0
  else parseDecimal (s.data.filter fun c => ¬(c = ',' ∨ c = ' '))

/-- `pdf.ParseAmount(s)`: converts a string amount to an `Amount`, in USD.
The Python function takes the token as its only parameter; the currency is
the literal `'USD'`.  Sequentially: strip a full `(...)` wrap (setting the
`invert` flag), strip a leading `-$` (setting the flag), strip a bare
leading `$`, convert with `number.D`, and negate once if the flag is set.
`s[0]` on an empty string raises `IndexError` (`none`). -/
def ParseAmount (s : String) : Option Amount :=
  match s.data with
  | [] => none
  | c :: cs =>
    let s0 := c :: cs
    let (s1, invert1) :=
      if c = '(' ∧ s0.getLast? = some ')' then (s0.dropLast.drop 1, true)
      else (s0, false)
    let (s2, invert2) :=
      if s1.take 2 = ['-', '$'] then (s1.drop 2, true)
      else (s1, invert1)
    match s2 with
    | [] => none
    | d :: ds =>
      let s3 := if d = '$' then ds else d :: ds
      match D (String.mk s3) with
      | none => none
      | some n =>
        let a : Amount := ⟨n, "USD"⟩
        some (if invert2 then InvertAmount a else a)

/-- `datetime.date` (and the date part of `datetime.datetime`). -/
structure Date where
  year : Int
  month : Nat
  day : Nat
  deriving DecidableEq, Repr

/-- `datetime.date.__lt__`: lexicographic on `(year, month, day)`. -/
def dateLt (a b : Date) : Bool :=
  if a.year ≠ b.year then a.year < b.year
  else if a.month ≠ b.month then a.month < b.month
  else a.day < b.day

/-- `to_adjust.replace(year=to_adjust.year-1)`. -/
def replaceYearPred (d : Date) : Date :=
  { d with year := d.year - 1 }

/-- `pdf.AdjustDateForYearBoundary(to_adjust, latest_date)`:
returns `to_adjust` when `to_adjust < latest_date`, and otherwise
`to_adjust.replace(year=to_adjust.year-1)`. -/
def AdjustDateForYearBoundary (to_adjust latest_date : Date) : Date :=
  if dateLt to_adjust latest_date then to_adjust
  else replaceYearPred to_adjust

/-- `parsers.Transaction = namedtuple('Transaction', 'date descr amount')`. -/
structure Transaction where
  date : Date
  descr : String
  amount : Amount
  deriving DecidableEq, Repr

/-- The two error kinds `parsers.reduceSingleMatch` raises (both surface as
Python `ValueError`; the message distinguishes them). -/
inductive ExtractionErr where
  | NoMatchFound
  | AmbiguousMatch
  deriving DecidableEq, Repr

/-- `parsers.reduceSingleMatch(pattern, p, text)`: runs the pattern over the
text, adds the transformed value of every match to a `set`, then checks
`len(results) == 0` (`found no matches`), `len(results) > 1` (`found more
than one match`), and otherwise returns `results.pop()`.  The matches the
compiled pattern yields, in document order, are the list `matches`; the
Python `set` of transformed values is the deduplicated list of them. -/
def reduceSingleMatch {M A : Type} [DecidableEq A] (p : M → A)
    (ms : List M) : Except ExtractionErr A :=
  match (ms.map p).dedup with
  | [] => .error .NoMatchFound
  | [r] => .ok r
  | _ :: _ :: _ => .error .AmbiguousMatch

/-- `parsers.parseAll(pattern, p, text)`: appends the transformed value of
every match to a list and returns it (no uniqueness or presence check). -/
def parseAll {M A : Type} (p : M → A) (ms : List M) : List A :=
  ms.foldl (fun results m => results ++ [p m]) []

/-- Proleptic-Gregorian leap-year test, as `datetime` implements it. -/
def isLeapYear (y : Int) : Bool :=
  y % 4 = 0 ∧ (¬(y % 100 = 0) ∨ y % 400 = 0)

/-- Number of days of a month in the proleptic Gregorian calendar. -/
def daysInMonth (y : Int) (m : Nat) : Nat :=
  if m = 2 then (if isLeapYear y then 29 else 28)
  else if m = 4 ∨ m = 6 ∨ m = 9 ∨ m = 11 then 30
  else 31

/-- `d + datetime.timedelta(days=1)`: the next calendar day. -/
def nextDay (d : Date) : Date :=
  if d.day < daysInMonth d.year d.month then ⟨d.year, d.month, d.day + 1⟩
  else if d.month < 12 then ⟨d.year, d.month + 1, 1⟩
  else ⟨d.year + 1, 1, 1⟩

/-- The two directive kinds `beancount.BeancountLedgerItems` produces:
`beancount.core.data.Transaction` (with its single posting, and the
metadata `new_metadata(filename, len(items))`, i.e. filename plus index)
and `beancount.core.data.Balance`.  The constant fields (`flag`, `payee`,
`tags`, `links`, and the `None` posting slots) are omitted. -/
inductive Directive where
  | txn (filename : String) (lineno : Nat) (date : Date) (narration : String)
      (postings : List (String × Amount))
  | balance (filename : String) (lineno : Nat) (date : Date)
      (account : String) (amt : Amount)
  deriving DecidableEq, Repr

/-- `beancount.BeancountLedgerItems`: a filename and the accumulated
directive list `items`. -/
structure BeancountLedgerItems where
  filename : String
  items : List Directive
  deriving DecidableEq, Repr

/-- `BeancountLedgerItems.AddTransactions(account, txns)`: for each
transaction, appends one `data.Transaction` whose single posting carries
the account and the transaction's amount, with metadata
`(filename, len(items))` at append time. -/
def AddTransactions (l : BeancountLedgerItems) (account : String)
    (txns : List Transaction) : BeancountLedgerItems :=
  txns.foldl (fun acc t =>
    { acc with
      items := acc.items ++
        [Directive.txn acc.filename acc.items.length t.date t.descr
          [(account, t.amount)]] }) l

/-- `BeancountLedgerItems.AddBalance(account, closing_date, balance)`:
appends one `data.Balance` dated `closing_date + timedelta(days=1)`. -/
def AddBalance (l : BeancountLedgerItems) (account : String)
    (closing_date : Date) (balance : Amount) : BeancountLedgerItems :=
  { l with
    items := l.items ++
      [Directive.balance l.filename l.items.length (nextDay closing_date)
        account balance] }

/-- `beancount.core.data.entry_sortkey`: `(date, SORT_ORDER type, lineno)`
where `data.SORT_ORDER` gives `Balance ↦ -1` and `Transaction ↦ 0`. -/
def entrySortKey : Directive → Date × Int × Nat
  | .txn _ lineno date _ _ => (date, 0, lineno)
  | .balance _ lineno date _ _ => (date, -1, lineno)

/-- Lexicographic comparison of `entry_sortkey` values. -/
def entrySortKeyLE (a b : Directive) : Bool :=
  let ka := entrySortKey a
  let kb := entrySortKey b
  if ka.1 ≠ kb.1 then dateLt ka.1 kb.1
  else if ka.2.1 ≠ kb.2.1 then ka.2.1 < kb.2.1
  else ka.2.2 ≤ kb.2.2

/-- `BeancountLedgerItems.SortedItems()` = `data.sorted(items)`: a stable
sort by `entry_sortkey`. -/
def SortedItems (l : BeancountLedgerItems) : List Directive :=
  l.items.mergeSort entrySortKeyLE

/-- One `data.Transaction` directive per input transaction, in document
order, with consecutive metadata indices starting at `startIdx`: the shape
the claim about ledger projection expects of the `AddTransactions`
output. -/
def movements (filename account : String) (startIdx : Nat) :
    List Transaction → List Directive
  | [] => []
  | t :: ts =>
      Directive.txn filename startIdx t.date t.descr [(account, t.amount)]
        :: movements filename account (startIdx + 1) ts

/-- `parsers.CapitalOneBankAccount =
namedtuple('CapitalOneBankAccount', 'num balance closing_date transactions')`. -/
structure CapitalOneBankAccount where
  num : String
  balance : Amount
  closing_date : Date
  transactions : List Transaction
  deriving DecidableEq, Repr

/-- The skip test of `beancount.CapitalOneBank.extract`:
`self.skip_accounts is not None and acct_row.num in self.skip_accounts`. -/
def skipTest (skip_accounts : Option (List String)) (num : String) : Bool :=
  match skip_accounts with
  | none => false
  | some sk => sk.contains num

/-- `self.num_to_account[acct_row.num]`: dict lookup, `none` = `KeyError`. -/
def lookupAccount (num_to_account : List (String × String)) (num : String) :
    Option String :=
  (num_to_account.find? (fun kv => kv.1 == num)).map Prod.snd

/-- The body of the `for acct_row in accounts:` loop of
`beancount.CapitalOneBank.extract`: a skipped account number is passed
over before any lookup; a failed lookup re-raises a `KeyError`
(`no account defined for ...`), aborting the whole extraction; otherwise
the account's transactions and balance are appended. -/
def CapitalOneBankExtractGo (num_to_account : List (String × String))
    (skip_accounts : Option (List String)) :
    BeancountLedgerItems → List CapitalOneBankAccount →
      Except String BeancountLedgerItems
  | l, [] => .ok l
  | l, acct_row :: rest =>
    if skipTest skip_accounts acct_row.num then
      CapitalOneBankExtractGo num_to_account skip_accounts l rest
    else
      match lookupAccount num_to_account acct_row.num with
      | none => .error ("no account defined for " ++ acct_row.num)
      | some acct =>
          CapitalOneBankExtractGo num_to_account skip_accounts
            (AddBalance (AddTransactions l acct acct_row.transactions) acct
              acct_row.closing_date acct_row.balance) rest

/-- `beancount.CapitalOneBank.extract(f)`, given the per-account sections
`parsers.CapitalOneBank` extracted from the document: starts from an empty
`BeancountLedgerItems(f.name)`, runs the account loop, and returns
`l.SortedItems()`. -/
def CapitalOneBankExtract (filename : String)
    (num_to_account : List (String × String))
    (skip_accounts : Option (List String))
    (accounts : List CapitalOneBankAccount) : Except String (List Directive) :=
  (CapitalOneBankExtractGo num_to_account skip_accounts ⟨filename, []⟩
    accounts).map SortedItems

end FinancialPdfParsing

namespace VanguardPdfToTxns

open FinancialPdfParsing

/-- The error `vanguard_pdf_to_txns.checkUnconsumed` builds when the row
count disagrees with the date-anchor count (`got X rows but expected Y rows
according to dates that are present ... Contents remaining after
matching: ...`); the embedding carries the data the message is formatted
from, including the unconsumed remainder of the document. -/
inductive VanguardError where
  | incompleteExtraction (filename : String) (got_rows want_rows : Nat)
      (remaining_contents : String)
  deriving DecidableEq, Repr

/-- `vanguard_pdf_to_txns.checkUnconsumed(got_rows, want_rows,
remaining_contents, filename)`: `None` when the counts agree, and otherwise
the constructed `ValueError` — which the function *returns* rather than
raises (the trailing `return rows` after it is unreachable dead code). -/
def checkUnconsumed (got_rows want_rows : Nat)
    (remaining_contents filename : String) : Option VanguardError :=
  if got_rows = want_rows then none
  else some (.incompleteExtraction filename got_rows want_rows
    remaining_contents)

/-- `vanguard_pdf_to_txns.MutualFundRow`. -/
structure MutualFundRow where
  date : Date
  fund : String
  txn_type : String
  shares : Rat
  price : Amount
  amount : Amount
  filename : String
  deriving DecidableEq, Repr

/-- `vanguard_pdf_to_txns.parseMutualFundPDF(filename)`.  The external
pieces are parameters: `contents` is the text `pdfToText` produced,
`countDateAnchors` is `len(re.findall(date_p, contents, ...))` (the
independent `want_rows` count) and `findAndConsumeRows` is
`findAndConsume(row_pattern, new_row, contents)` (returning the unmatched
leftover text and the parsed rows, in document order).  The body computes
`want_rows`, runs the row extraction, passes `len(rows)`, `want_rows` and
the leftover to `checkUnconsumed`, binds the result to `err` — and then
returns `rows` unconditionally, never raising or propagating `err`. -/
def parseMutualFundPDF {Row : Type} (countDateAnchors : String → Nat)
    (findAndConsumeRows : String → String × List Row)
    (filename contents : String) : List Row :=
  let want_rows := countDateAnchors contents
  let (remaining_contents, rows) := findAndConsumeRows contents
  let err := checkUnconsumed rows.length want_rows remaining_contents filename
  let _ := err
  rows

end VanguardPdfToTxns

namespace FinancialPdfParsing

-- Sanity checks mirroring pdf_test.py TestParseAmount.testBasic and
-- testNegative, and TestAdjustDateForYearBoundary.
example : ParseAmount "1.23" = some ⟨mkRat 123 100, "USD"⟩ := by decide
example : ParseAmount "$1.23" = some ⟨mkRat 123 100, "USD"⟩ := by decide
example : ParseAmount "-$1.23" = some ⟨mkRat (-123) 100, "USD"⟩ := by decide
example :
    AdjustDateForYearBoundary ⟨2021, 11, 1⟩ ⟨2021, 12, 1⟩ = ⟨2021, 11, 1⟩ := by
  decide
example :
    AdjustDateForYearBoundary ⟨2021, 12, 1⟩ ⟨2021, 1, 5⟩ = ⟨2020, 12, 1⟩ := by
  decide
example : D "3,243" = some (mkRat 3243 1) := by decide

theorem amountMul_number (a : Amount) (n : Rat) :
    (amountMul a n).number = a.number * n := by
  show mkRat (a.number.num * n.num) (a.number.den * n.den) = a.number * n
  rw [← Rat.mkRat_mul_mkRat, Rat.mkRat_self, Rat.mkRat_self]

/-- C1: the claim says `AdjustDateForYearBoundary` subtracts one year if
and only if the candidate is strictly after the reference date, so that a
candidate whose month and day equal the reference's resolves to the
reference's own year unchanged.  The code tests `to_adjust < latest_date`
and subtracts otherwise, so on an *equal* candidate it subtracts a year:
for candidate 2021-06-15 and reference 2021-06-15 it returns 2020-06-15,
contradicting the claim (and the function's own docstring, which says the
date is moved back only when it is *after* the reference). -/
theorem adjustDate_subtracts_on_equal_dates :
    AdjustDateForYearBoundary ⟨2021, 6, 15⟩ ⟨2021, 6, 15⟩ = ⟨2020, 6, 15⟩ := by
  decide

/-- C2: the claim says `parseAmount` accepts an optional currency argument
defaulting to USD, honoured by the Chase rewards-balance caller.  The code
of `pdf.ParseAmount` takes the token as its *only* parameter and denominates
every successful result in the literal `'USD'` (so the keyword call
`pdf.ParseAmount(match.group(1), currency=rewards_currency)` in
`ChaseCC._rewards_balance` raises `TypeError`): every amount the function
can return carries currency `"USD"`, and the rewards-points token parses
to a USD amount. -/
theorem parseAmount_currency_is_always_USD (s : String) :
    ((ParseAmount s).all fun a => a.currency == "USD") = true
    ∧ ParseAmount "3,243" = some ⟨mkRat 3243 1, "USD"⟩ := by
  constructor
  · unfold ParseAmount
    split
    · rfl
    · dsimp only
      repeat' split
      all_goals rfl
  · decide

/-- C3: the claim says a leading `"- $"` (minus, one space, dollar) parses
like `"-$"` and yields the negated amount; the repository's own test
`pdf_test.TestParseAmount.testNegativeWithSpace` expects
`ParseAmount("- $1.23") == -1.23`.  The code never strips `"- $"`: the
token reaches `number.D` still holding its dollar sign, so the conversion
raises instead of succeeding. -/
theorem parseAmount_minus_space_dollar_raises :
    ParseAmount "- $1.23" = none
    ∧ ParseAmount "-$1.23" = some ⟨mkRat (-123) 100, "USD"⟩ := by
  refine ⟨by decide, by decide⟩

/-- C10: `InvertAmount` is an involution that negates the number and
preserves the currency code. -/
theorem invertAmount_involution (a : Amount) :
    InvertAmount (InvertAmount a) = a
    ∧ (InvertAmount a).currency = a.currency
    ∧ (InvertAmount a).number = -a.number := by
  have hnum : ∀ b : Amount, (InvertAmount b).number = -b.number := by
    intro b
    rw [InvertAmount, amountMul_number, NEGATIVE_ONE]
    ring
  refine ⟨?_, rfl, hnum a⟩
  have heta : InvertAmount (InvertAmount a)
      = Amount.mk (InvertAmount (InvertAmount a)).number
        (InvertAmount (InvertAmount a)).currency := rfl
  rw [heta, hnum, hnum, neg_neg]
  rfl

/-- C6: negation is applied at most once however many negative markers the
token carries: `($1.23)` and `-$1.23` both parse to `-1.23`, and the
double-marked `(-$1.23)` still parses to the single-negated `-1.23`, never
to the double-negated `+1.23`. -/
theorem parseAmount_single_negation :
    ParseAmount "($1.23)" = some ⟨mkRat (-123) 100, "USD"⟩
    ∧ ParseAmount "-$1.23" = some ⟨mkRat (-123) 100, "USD"⟩
    ∧ ParseAmount "(-$1.23)" = some ⟨mkRat (-123) 100, "USD"⟩ := by
  refine ⟨by decide, by decide, by decide⟩

/-- C9: repeated extraction over a document with zero matches of the row
pattern succeeds with the empty list — no error is possible at this level. -/
theorem parseAll_no_matches_is_empty {M A : Type} (p : M → A) :
    parseAll p ([] : List M) = [] := rfl

/-- C5: singleton extraction returns a value iff the set of distinct
transformed results across all matches is a singleton: no matches give the
no-match error, two or more distinct values give the ambiguity error, and
duplicate occurrences of one value succeed with that value. -/
theorem reduceSingleMatch_characterization {M A : Type} [DecidableEq A]
    (p : M → A) (ms : List M) :
    (ms = [] → reduceSingleMatch p ms = .error .NoMatchFound)
    ∧ (1 < ((ms.map p).dedup).length →
        reduceSingleMatch p ms = .error .AmbiguousMatch)
    ∧ (∀ a, (ms.map p).dedup = [a] → reduceSingleMatch p ms = .ok a)
    ∧ ((∃ a, reduceSingleMatch p ms = .ok a)
        ↔ ((ms.map p).dedup).length = 1) := by
  rcases hd : (ms.map p).dedup with _ | ⟨x, _ | ⟨y, t⟩⟩
  · have hr : reduceSingleMatch p ms = .error .NoMatchFound := by
      unfold reduceSingleMatch
      rw [hd]
    refine ⟨fun _ => hr, ?_, ?_, ?_⟩
    · intro h
      simp at h
    · intro a ha
      simp at ha
    · simp [hr]
  · have hr : reduceSingleMatch p ms = .ok x := by
      unfold reduceSingleMatch
      rw [hd]
    have hne : ms ≠ [] := by
      intro h
      subst h
      simp at hd
    refine ⟨fun h => absurd h hne, ?_, ?_, ?_⟩
    · intro h
      simp at h
    · intro a ha
      injection ha with h1 _
      rw [hr, h1]
    · simp [hr]
  · have hr : reduceSingleMatch p ms = .error .AmbiguousMatch := by
      unfold reduceSingleMatch
      rw [hd]
    have hne : ms ≠ [] := by
      intro h
      subst h
      simp at hd
    refine ⟨fun h => absurd h hne, fun _ => hr, ?_, ?_⟩
    · intro a ha
      simp at ha
    · simp [hr]

/-- Closed instantiation of `reduceSingleMatch_characterization`: two
occurrences that transform to the identical value succeed with that
value. -/
theorem reduceSingleMatch_characterization_witness :
    reduceSingleMatch (fun n : Nat => n) [5, 5] = .ok 5 :=
  (reduceSingleMatch_characterization (fun n : Nat => n) [5, 5]).2.2.1 5
    (by decide)

theorem AddTransactions_cons (l : BeancountLedgerItems) (account : String)
    (t : Transaction) (ts : List Transaction) :
    AddTransactions l account (t :: ts)
      = AddTransactions
          { l with
            items := l.items ++
              [Directive.txn l.filename l.items.length t.date t.descr
                [(account, t.amount)]] }
          account ts := rfl

theorem AddTransactions_items (f account : String) (txns : List Transaction)
    (items : List Directive) :
    (AddTransactions ⟨f, items⟩ account txns).items
      = items ++ movements f account items.length txns := by
  induction txns generalizing items with
  | nil => simp [AddTransactions, movements]
  | cons t ts ih =>
      rw [AddTransactions_cons]
      show (AddTransactions
          ⟨f, items ++ [Directive.txn f items.length t.date t.descr
            [(account, t.amount)]]⟩ account ts).items = _
      rw [ih]
      simp [movements]

theorem movements_length (f account : String) (n : Nat)
    (ts : List Transaction) : (movements f account n ts).length = ts.length := by
  induction ts generalizing n with
  | nil => rfl
  | cons t ts ih => simp [movements, ih]

theorem AddTransactions_filename (l : BeancountLedgerItems) (account : String)
    (ts : List Transaction) : (AddTransactions l account ts).filename = l.filename := by
  induction ts generalizing l with
  | nil => rfl
  | cons t ts ih =>
      rw [AddTransactions_cons]
      exact ih _

/-- C7: ledger projection of a parsed statement — `AddTransactions`
followed by `AddBalance` on a fresh `BeancountLedgerItems` — emits one
transaction directive per input transaction, in exactly the input
(document) order, followed by exactly one balance assertion whose date is
the closing date plus one calendar day. -/
theorem projection_order_and_balance_date (f account : String)
    (txns : List Transaction) (closing_date : Date) (balance : Amount) :
    (AddBalance (AddTransactions ⟨f, []⟩ account txns) account closing_date
        balance).items
      = movements f account 0 txns
        ++ [Directive.balance f txns.length (nextDay closing_date) account
              balance] := by
  have h0 : (AddTransactions ⟨f, []⟩ account txns).items
      = movements f account 0 txns := by
    simpa using AddTransactions_items f account txns []
  have hf : (AddTransactions ⟨f, []⟩ account txns).filename = f :=
    AddTransactions_filename ⟨f, []⟩ account txns
  simp [AddBalance, h0, hf, movements_length]

theorem CapitalOneBankExtractGo_skip (num_to_account : List (String × String))
    (skip_accounts : Option (List String)) (row : CapitalOneBankAccount)
    (hskip : skipTest skip_accounts row.num = true)
    (post : List CapitalOneBankAccount) :
    ∀ (pre : List CapitalOneBankAccount) (l : BeancountLedgerItems),
      CapitalOneBankExtractGo num_to_account skip_accounts l
          (pre ++ row :: post)
        = CapitalOneBankExtractGo num_to_account skip_accounts l
            (pre ++ post) := by
  intro pre
  induction pre with
  | nil =>
      intro l
      show CapitalOneBankExtractGo _ _ l (row :: post) = _
      simp only [CapitalOneBankExtractGo]
      rw [if_pos hskip]
      rfl
  | cons q qs ih =>
      intro l
      simp only [List.cons_append, CapitalOneBankExtractGo]
      by_cases hq : skipTest skip_accounts q.num = true
      · rw [if_pos hq, if_pos hq]
        exact ih _
      · rw [if_neg hq, if_neg hq]
        cases hlq : lookupAccount num_to_account q.num with
        | none => rfl
        | some acct => exact ih _

theorem CapitalOneBankExtractGo_unknown
    (num_to_account : List (String × String))
    (skip_accounts : Option (List String)) (row : CapitalOneBankAccount)
    (hskip : skipTest skip_accounts row.num = false)
    (hlook : lookupAccount num_to_account row.num = none)
    (post : List CapitalOneBankAccount) :
    ∀ pre : List CapitalOneBankAccount,
      (∀ r ∈ pre, skipTest skip_accounts r.num = true
        ∨ (lookupAccount num_to_account r.num).isSome = true) →
      ∀ l : BeancountLedgerItems,
        CapitalOneBankExtractGo num_to_account skip_accounts l
            (pre ++ row :: post)
          = .error ("no account defined for " ++ row.num) := by
  intro pre
  induction pre with
  | nil =>
      intro _ l
      show CapitalOneBankExtractGo _ _ l (row :: post) = _
      simp only [CapitalOneBankExtractGo]
      rw [if_neg (by simp [hskip]), hlook]
  | cons q qs ih =>
      intro hpre l
      have hq := hpre q (by simp)
      simp only [List.cons_append, CapitalOneBankExtractGo]
      by_cases hqs : skipTest skip_accounts q.num = true
      · rw [if_pos hqs]
        exact ih (fun r hr => hpre r (by simp [hr])) _
      · rw [if_neg hqs]
        cases hlq : lookupAccount num_to_account q.num with
        | none =>
            rcases hq with hq | hq
            · exact absurd hq hqs
            · rw [hlq] at hq
              simp at hq
        | some acct => exact ih (fun r hr => hpre r (by simp [hr])) _

/-- C8: in `CapitalOneBank.extract`, an account section whose number is in
the skip-set contributes no directives and raises no error, even when the
number has no entry in the number-to-account mapping (the skip test runs
before the lookup); while a non-skipped number missing from the mapping
makes the whole extraction fail with the unknown-account (`KeyError`)
error, returning no directives at all. -/
theorem capitalOneBank_skip_precedes_lookup (f : String)
    (num_to_account : List (String × String))
    (skip_accounts : Option (List String))
    (pre post : List CapitalOneBankAccount) (row : CapitalOneBankAccount) :
    (skipTest skip_accounts row.num = true →
      CapitalOneBankExtract f num_to_account skip_accounts
          (pre ++ row :: post)
        = CapitalOneBankExtract f num_to_account skip_accounts (pre ++ post))
    ∧ (skipTest skip_accounts row.num = false →
       lookupAccount num_to_account row.num = none →
       (∀ r ∈ pre, skipTest skip_accounts r.num = true
          ∨ (lookupAccount num_to_account r.num).isSome = true) →
       CapitalOneBankExtract f num_to_account skip_accounts
           (pre ++ row :: post)
         = .error ("no account defined for " ++ row.num)) := by
  constructor
  · intro hskip
    unfold CapitalOneBankExtract
    rw [CapitalOneBankExtractGo_skip num_to_account skip_accounts row hskip
      post pre]
  · intro hskip hlook hpre
    unfold CapitalOneBankExtract
    rw [CapitalOneBankExtractGo_unknown num_to_account skip_accounts row
      hskip hlook post pre hpre]
    rfl

/-- Closed instantiation of `capitalOneBank_skip_precedes_lookup`: one
account section numbered `B`, a skip-set containing `B`, and a mapping
without `B` extract to the same result as no sections at all. -/
theorem capitalOneBank_skip_precedes_lookup_witness :
    CapitalOneBankExtract "statement.pdf" [("A", "Assets:A")] (some ["B"])
        [⟨"B", ⟨mkRat 1 1, "USD"⟩, ⟨2021, 1, 2⟩, []⟩]
      = CapitalOneBankExtract "statement.pdf" [("A", "Assets:A")]
          (some ["B"]) [] :=
  (capitalOneBank_skip_precedes_lookup "statement.pdf" [("A", "Assets:A")]
      (some ["B"]) [] [] ⟨"B", ⟨mkRat 1 1, "USD"⟩, ⟨2021, 1, 2⟩, []⟩).1
    (by decide)

end FinancialPdfParsing

namespace VanguardPdfToTxns

/-- C4: the claim says an incomplete row extraction (fewer matched rows
than the independent date-anchor count) aborts the statement parse with
the incomplete-extraction error carrying the unconsumed remainder, and
that no partial row list reaches the caller.  In the code,
`checkUnconsumed` *returns* the constructed error instead of raising it,
and `parseMutualFundPDF` binds it to `err` and ignores it: the function
always returns whatever rows matched.  With one date anchor expected and
zero rows matched, the parse returns the empty partial list even though
`checkUnconsumed` reports the mismatch. -/
theorem parseMutualFundPDF_ignores_row_count_error :
    (∀ (countDateAnchors : String → Nat)
        (findAndConsumeRows : String → String × List MutualFundRow)
        (filename contents : String),
        parseMutualFundPDF countDateAnchors findAndConsumeRows filename
          contents = (findAndConsumeRows contents).2)
    ∧ parseMutualFundPDF (fun _ => 1)
        (fun c => (c, ([] : List MutualFundRow))) "1.pdf" "01/01/2021 x" = []
    ∧ checkUnconsumed 0 1 "01/01/2021 x" "1.pdf"
        = some (.incompleteExtraction "1.pdf" 0 1 "01/01/2021 x") := by
  refine ⟨?_, rfl, rfl⟩
  intro cd fc f c
  rfl

end VanguardPdfToTxns
